import Mathlib

/-!
Verification of the application-profile configuration engine of
`src/gtk+-2.x/ctkappprofile.c` (nvidia-settings).

The JSON value tree of the external jansson library is embedded as the
inductive `Json`; GUI plumbing (tree views, status bars) is reduced to the
data it carries (the edited value, the emitted messages).
-/

namespace CtkAppProfile

/-- Embedding of the jansson `json_t` value tree: the eight JSON types
(`JSON_STRING`, `JSON_INTEGER`, `JSON_REAL`, `JSON_TRUE`, `JSON_FALSE`,
`JSON_NULL`, `JSON_OBJECT`, `JSON_ARRAY`).  A real number is carried as its
canonical source text, since the engine never computes with reals. -/
inductive Json where
  | str (s : String)
  | integer (n : Int)
  | real (r : String)
  | jsonTrue
  | jsonFalse
  | null
  | object (fields : List (String × Json))
  | array (elems : List Json)

/-- Embedding of the jansson type tags returned by `json_typeof`. -/
inductive JsonType where
  | JSON_STRING
  | JSON_INTEGER
  | JSON_REAL
  | JSON_TRUE
  | JSON_FALSE
  | JSON_NULL
  | JSON_OBJECT
  | JSON_ARRAY
deriving DecidableEq

/-- Embedding of jansson `json_typeof`. -/
def json_typeof : Json → JsonType
  | .str _ => .JSON_STRING
  | .integer _ => .JSON_INTEGER
  | .real _ => .JSON_REAL
  | .jsonTrue => .JSON_TRUE
  | .jsonFalse => .JSON_FALSE
  | .null => .JSON_NULL
  | .object _ => .JSON_OBJECT
  | .array _ => .JSON_ARRAY

/-- Embedding of `is_valid_setting_value` (ctkappprofile.c:2476-2499): a
switch on `json_typeof` that accepts string/true/false/real/integer and
rejects null/object/array, reporting the rejected type's name through the
`invalid_type_str` out-parameter (modelled as the second component). -/
def is_valid_setting_value (value : Json) : Bool × Option String :=
  match json_typeof value with
  | .JSON_STRING => (true, none)
  | .JSON_TRUE => (true, none)
  | .JSON_FALSE => (true, none)
  | .JSON_REAL => (true, none)
  | .JSON_INTEGER => (true, none)
  | .JSON_NULL => (false, some "null")
  | .JSON_OBJECT => (false, some "object")
  | .JSON_ARRAY => (false, some "array")

/-- Spec-side restatement (for comparison with the embedded code): the
setting-value types the spec calls legal. -/
def spec_legal_setting_type (t : JsonType) : Bool :=
  match t with
  | .JSON_STRING => true
  | .JSON_TRUE => true
  | .JSON_FALSE => true
  | .JSON_REAL => true
  | .JSON_INTEGER => true
  | _ => false

/-- Spec-side restatement: the illegal type name the spec says is reported. -/
def spec_illegal_type_name (t : JsonType) : Option String :=
  match t with
  | .JSON_NULL => some "null"
  | .JSON_OBJECT => some "object"
  | .JSON_ARRAY => some "array"
  | _ => none

/-- Embedding of the messages `setting_value_edited` pushes on the error
statusbar (ctkappprofile.c:2533-2551). -/
inductive StatusMessage where
  | parseError (text : String)
  | illegalType (typeName : String)
deriving DecidableEq

/-- Embedding of `setting_value_edited` (ctkappprofile.c:2501-2556), reduced
to its value logic.  `canceled` is `dialog->setting_update_canceled` (the
function returns without updating anything when set); `parsed` is the result
of the external `json_loads` on the user text (`none` = parse failure).
Returns `none` when no update happens, otherwise the value stored in the
setting together with the statusbar message pushed, if any. -/
def setting_value_edited (canceled : Bool) (new_text : String)
    (parsed : Option Json) : Option (Json × Option StatusMessage) :=
  if canceled then
    none
  else
    match parsed with
    | none => some (.jsonFalse, some (.parseError new_text))
    | some value =>
      match is_valid_setting_value value with
      | (true, _) => some (value, none)
      | (false, t) => some (.jsonFalse, some (.illegalType (t.getD "")))

/-- C1: the setting-value check accepts exactly the values of type string,
boolean, real or integer, and for a null/object/array value it rejects and
reports exactly "null"/"object"/"array" as the illegal type name. -/
theorem C1_is_valid_setting_value (v : Json) :
    ((is_valid_setting_value v).fst = true ↔
      spec_legal_setting_type (json_typeof v) = true) ∧
    (is_valid_setting_value v).snd = spec_illegal_type_name (json_typeof v) := by
  cases v <;> simp [is_valid_setting_value, json_typeof, spec_legal_setting_type,
    spec_illegal_type_name]

/-- C1 witness: concrete evaluations on a null value and a string value. -/
theorem C1_is_valid_setting_value_witness :
    (is_valid_setting_value Json.null).snd = some "null" ∧
    (is_valid_setting_value (Json.str "USLEEP")).fst = true := by
  refine ⟨(C1_is_valid_setting_value Json.null).2.trans rfl, ?_⟩
  exact (C1_is_valid_setting_value (Json.str "USLEEP")).1.mpr rfl

/-- C2: when the JSON parser cannot parse the entered value text, a
non-canceled edit reports a parse error naming the text and stores the
placeholder value boolean false; the function is total (no crash). -/
theorem C2_setting_value_edited_parse_error (text : String) :
    setting_value_edited false text none =
      some (Json.jsonFalse, some (.parseError text)) := by
  simp [setting_value_edited]

/-- C10: whenever a setting-value edit stores a value, the stored value is of
a legal setting type (string, integer, real or boolean); a parsed value of an
illegal type (null, object or array) is replaced by boolean false just like
unparseable text, so no null/object/array value ever enters the settings. -/
theorem C10_setting_value_edited_invariant (canceled : Bool) (text : String)
    (parsed : Option Json) :
    (∀ stored msg, setting_value_edited canceled text parsed = some (stored, msg) →
      (is_valid_setting_value stored).fst = true) ∧
    (∀ v, parsed = some v → (is_valid_setting_value v).fst = false →
      setting_value_edited false text parsed =
        some (Json.jsonFalse,
              some (.illegalType (((is_valid_setting_value v).snd).getD "")))) := by
  constructor
  · intro stored msg h
    cases canceled with
    | true => simp [setting_value_edited] at h
    | false =>
      cases parsed with
      | none =>
        simp [setting_value_edited] at h
        simp [← h.1, is_valid_setting_value, json_typeof]
      | some v =>
        rcases hv : is_valid_setting_value v with ⟨b, t⟩
        cases b with
        | true =>
          simp [setting_value_edited, hv] at h
          rw [← h.1, hv]
        | false =>
          simp [setting_value_edited, hv] at h
          simp [← h.1, is_valid_setting_value, json_typeof]
  · intro v hv hbad
    rcases h : is_valid_setting_value v with ⟨b, t⟩
    rw [h] at hbad
    subst hbad
    subst hv
    simp [setting_value_edited, h]

/-- C10 witness: editing with the parsed value `null` (an illegal type)
stores boolean false, and the stored value is of a legal type. -/
theorem C10_setting_value_edited_invariant_witness :
    setting_value_edited false "null" (some Json.null) =
      some (Json.jsonFalse, some (.illegalType "null")) ∧
    (is_valid_setting_value Json.jsonFalse).fst = true := by
  have h := C10_setting_value_edited_invariant false "null" (some Json.null)
  refine ⟨(h.2 Json.null rfl rfl).trans rfl, ?_⟩
  exact h.1 Json.jsonFalse (some (.illegalType "null"))
    ((h.2 Json.null rfl rfl).trans rfl)

/-- Embedding of `profile_setting_keys` (ctkappprofile.c:59-75): the fixed
table of recognized setting keys, one per `PROFILE_SETTING_*` enumerator. -/
def profile_setting_keys : List String :=
  [ "GLFSAAMode",
    "GLLogMaxAniso",
    "GLNoDsoFinalizer",
    "GLSingleThreaded",
    "GLSyncDisplayDevice",
    "GLSyncToVblank",
    "GLSortFbconfigs",
    "GLAllowUnofficialProtocol",
    "GLSELinuxBooleans",
    "GLShaderDiskCache",
    "GLShaderDiskCachePath",
    "GLYield",
    "GLThreadedOptimizations",
    "GLDoom3",
    "GLExtensionStringVersion" ]

/-- Embedding of the C-locale `tolower` used by `strcasecmp`: lowercases the
ASCII letters A-Z and leaves every other character unchanged. -/
def c_tolower (c : Char) : Char :=
  if 'A' ≤ c ∧ c ≤ 'Z' then Char.ofNat (c.toNat + 32) else c

/-- Embedding of `!strcasecmp(a, b)`: byte-wise equality after C-locale
lowercasing. -/
def strcasecmp_eq (a b : String) : Bool :=
  a.data.map c_tolower = b.data.map c_tolower

/-- Embedding of `get_canonical_setting_key` (ctkappprofile.c:2194-2203):
scans `profile_setting_keys` in order and returns the first entry that
compares equal to `key` under `strcasecmp`, or NULL (`none`). -/
def get_canonical_setting_key (key : String) : Option String :=
  profile_setting_keys.find? (fun k => strcasecmp_eq key k)

/-- C3: the table has exactly 15 entries; `get_canonical_setting_key` returns
a canonical spelling exactly when the input matches a table entry
case-insensitively (and then the returned key is that matching entry), and
returns not-found for every other string. -/
theorem C3_get_canonical_setting_key (s : String) :
    profile_setting_keys.length = 15 ∧
    (∀ k, get_canonical_setting_key s = some k →
      k ∈ profile_setting_keys ∧ strcasecmp_eq s k = true) ∧
    (get_canonical_setting_key s = none ↔
      ∀ k ∈ profile_setting_keys, strcasecmp_eq s k = false) := by
  refine ⟨rfl, ?_, ?_⟩
  · intro k hk
    exact ⟨List.mem_of_find?_eq_some hk, List.find?_some hk⟩
  · simp only [get_canonical_setting_key, List.find?_eq_none]
    constructor
    · intro h k hk
      simpa using h k hk
    · intro h k hk
      simp [h k hk]

/-- C3 witness: the lowercased spelling of a recognized key resolves to its
canonical spelling, and an unknown key is not found. -/
theorem C3_get_canonical_setting_key_witness :
    get_canonical_setting_key "glsynctovblank" = some "GLSyncToVblank" ∧
    "GLSyncToVblank" ∈ profile_setting_keys ∧
    strcasecmp_eq "glsynctovblank" "GLSyncToVblank" = true ∧
    get_canonical_setting_key "NotAKey" = none := by
  have h1 : get_canonical_setting_key "glsynctovblank" = some "GLSyncToVblank" := by
    decide
  have h2 := (C3_get_canonical_setting_key "glsynctovblank").2.1 _ h1
  exact ⟨h1, h2.1, h2.2, by decide⟩

/-- Embedding of `rule_feature_identifiers` (ctkappprofile.c:150-154). -/
def rule_feature_identifiers : List String := ["procname", "dso", "true"]

/-- Helper mirroring the scanning loop of `parse_feature`: the index of the
first entry equal to `s`, counting from `i`. -/
def parse_feature_scan (s : String) : List String → Nat → Option Nat
  | [], _ => none
  | id :: rest, i => if s = id then some i else parse_feature_scan s rest (i + 1)

/-- Embedding of `parse_feature` (ctkappprofile.c:1168-1177): returns the
index of the matching identifier in `rule_feature_identifiers`, or 0 when no
identifier matches. -/
def parse_feature (feature_str : String) : Nat :=
  (parse_feature_scan feature_str rule_feature_identifiers 0).getD 0

/-- C9: `parse_feature` maps each identifier of the table
procname/dso/true to its index, and maps every string outside the table to
index 0, i.e. an unrecognized feature is silently treated as procname. -/
theorem C9_parse_feature (s : String) :
    parse_feature "procname" = 0 ∧
    parse_feature "dso" = 1 ∧
    parse_feature "true" = 2 ∧
    (s ∉ rule_feature_identifiers → parse_feature s = 0) := by
  refine ⟨by decide, by decide, by decide, ?_⟩
  intro hs
  have h1 : s ≠ "procname" := by
    intro h; exact hs (by simp [rule_feature_identifiers, h])
  have h2 : s ≠ "dso" := by
    intro h; exact hs (by simp [rule_feature_identifiers, h])
  have h3 : s ≠ "true" := by
    intro h; exact hs (by simp [rule_feature_identifiers, h])
  simp [parse_feature, rule_feature_identifiers, parse_feature_scan, h1, h2, h3]

/-- C9 witness: an unrecognized feature string is mapped to index 0. -/
theorem C9_parse_feature_witness :
    "keybinding" ∉ rule_feature_identifiers ∧ parse_feature "keybinding" = 0 := by
  refine ⟨by decide, ?_⟩
  exact (C9_parse_feature "keybinding").2.2.2 (by decide)

/-- Embedding of a setting object of the settings JSON array: the fields
read by the validators (`"key"`, `"value"`). -/
structure Setting where
  key : String
  value : Json

/-- Validation errors collected by the edit dialogs; one constructor per
`g_string_append_printf` site in `edit_rule_dialog_validate` and
`edit_profile_dialog_validate`. -/
inductive ValidationError where
  | invalidSourceFile (file : String)
  | profileDoesNotExist (name : String)
  | emptyProfileName
  | overwriteExisting (name : String)
  | renameOverwrites (oldName newName : String)
  | unrecognizedKeys
deriving DecidableEq

/-- The configuration state the validators consult: the search path and the
names of the profiles currently in the configuration. -/
structure ConfigSession where
  search_path : List String
  profile_names : List String

/-- Modelled from the spec: `nv_app_profile_config_check_valid_source_file`
(external app-profiles library, not under src/), wrapped by
`check_valid_source_file` (ctkappprofile.c:1728-1735).  Spec 4.5: fatal "if
`source_file` is not a legal location on the search path"; modelled as
membership of the filename in the search path. -/
def check_valid_source_file (session : ConfigSession) (source_file : String) :
    Bool :=
  session.search_path.contains source_file

/-- Modelled from the spec: `ctk_apc_profile_model_get_profile` (ctkapcmodel.c,
not under src/) — `get_profile(name) -> Profile | not-found` (spec 4.3); the
validators use only whether the result is non-NULL, so it is modelled as a
name lookup returning that truth value. -/
def ctk_apc_profile_model_get_profile (session : ConfigSession)
    (name : String) : Bool :=
  session.profile_names.contains name

/-- Embedding of `edit_rule_dialog_validate` (ctkappprofile.c:1739-1770),
reduced to the errors it collects: first component the fatal errors, second
the nonfatal errors, in the order the code appends them. -/
def edit_rule_dialog_validate (session : ConfigSession)
    (source_file profile_name : String) :
    List ValidationError × List ValidationError :=
  let fatal :=
    if check_valid_source_file session source_file then []
    else [ValidationError.invalidSourceFile source_file]
  let nonfatal :=
    if ctk_apc_profile_model_get_profile session profile_name then []
    else [ValidationError.profileDoesNotExist profile_name]
  (fatal, nonfatal)

/-- C4: rule validation produces a fatal error iff the source file is not a
legal search-path location, a nonfatal error iff the profile name does not
resolve to an existing profile, and no other errors. -/
theorem C4_edit_rule_dialog_validate (session : ConfigSession)
    (source_file profile_name : String) :
    ((edit_rule_dialog_validate session source_file profile_name).1 ≠ [] ↔
      check_valid_source_file session source_file = false) ∧
    ((edit_rule_dialog_validate session source_file profile_name).2 ≠ [] ↔
      ctk_apc_profile_model_get_profile session profile_name = false) ∧
    (∀ e ∈ (edit_rule_dialog_validate session source_file profile_name).1,
      e = ValidationError.invalidSourceFile source_file) ∧
    (∀ e ∈ (edit_rule_dialog_validate session source_file profile_name).2,
      e = ValidationError.profileDoesNotExist profile_name) := by
  cases h1 : check_valid_source_file session source_file <;>
    cases h2 : ctk_apc_profile_model_get_profile session profile_name <;>
      simp [edit_rule_dialog_validate, h1, h2]

/-- C4 witness: a rule whose source file is off the search path and whose
profile does not exist gets exactly one fatal and one nonfatal error. -/
theorem C4_edit_rule_dialog_validate_witness :
    (edit_rule_dialog_validate
        ⟨["/etc/nvidia/nvidia-application-profiles-rc"], []⟩
        "/bad/file" "Fast").1 ≠ [] ∧
    (edit_rule_dialog_validate
        ⟨["/etc/nvidia/nvidia-application-profiles-rc"], []⟩
        "/bad/file" "Fast").2 ≠ [] := by
  have h := C4_edit_rule_dialog_validate
      ⟨["/etc/nvidia/nvidia-application-profiles-rc"], []⟩ "/bad/file" "Fast"
  exact ⟨h.1.mpr (by decide), h.2.1.mpr (by decide)⟩

/-- Embedding of `check_unrecognized_setting_keys` (ctkappprofile.c:2205-2219):
true iff some setting's key has no canonical spelling. -/
def check_unrecognized_setting_keys (settings : List Setting) : Bool :=
  settings.any (fun s => (get_canonical_setting_key s.key).isNone)

/-- The state of the edit-profile dialog consulted by its validator. -/
structure EditProfileDialog where
  name : String
  orig_name : String
  new_profile : Bool
  source_file : String
  settings : List Setting

/-- Embedding of `edit_profile_dialog_validate` (ctkappprofile.c:2223-2276),
reduced to the errors it collects (fatal, nonfatal), appended in the order of
the code: empty name, overwrite warning, invalid source file (fatal),
unrecognized keys. -/
def edit_profile_dialog_validate (session : ConfigSession)
    (dialog : EditProfileDialog) :
    List ValidationError × List ValidationError :=
  let nonfatalEmpty :=
    if dialog.name = "" then [ValidationError.emptyProfileName] else []
  let nonfatalOverwrite :=
    if (dialog.new_profile || dialog.name != dialog.orig_name) &&
        ctk_apc_profile_model_get_profile session dialog.name then
      if dialog.new_profile then [ValidationError.overwriteExisting dialog.name]
      else [ValidationError.renameOverwrites dialog.orig_name dialog.name]
    else []
  let fatal :=
    if check_valid_source_file session dialog.source_file then []
    else [ValidationError.invalidSourceFile dialog.source_file]
  let nonfatalKeys :=
    if check_unrecognized_setting_keys dialog.settings then
      [ValidationError.unrecognizedKeys]
    else []
  (fatal, nonfatalEmpty ++ nonfatalOverwrite ++ nonfatalKeys)

/-- C5: profile validation is fatal exactly when the source file is invalid,
and nonfatal exactly for: empty name; collision of a new profile's name or of
a rename target with an existing (different) profile; and an unrecognized
setting key.  No other errors are produced. -/
theorem C5_edit_profile_dialog_validate (session : ConfigSession)
    (dialog : EditProfileDialog) :
    ((edit_profile_dialog_validate session dialog).1 ≠ [] ↔
      check_valid_source_file session dialog.source_file = false) ∧
    (∀ e ∈ (edit_profile_dialog_validate session dialog).1,
      e = ValidationError.invalidSourceFile dialog.source_file) ∧
    (ValidationError.emptyProfileName ∈
        (edit_profile_dialog_validate session dialog).2 ↔ dialog.name = "") ∧
    (ValidationError.overwriteExisting dialog.name ∈
        (edit_profile_dialog_validate session dialog).2 ↔
      dialog.new_profile = true ∧
      ctk_apc_profile_model_get_profile session dialog.name = true) ∧
    (ValidationError.renameOverwrites dialog.orig_name dialog.name ∈
        (edit_profile_dialog_validate session dialog).2 ↔
      dialog.new_profile = false ∧ dialog.name ≠ dialog.orig_name ∧
      ctk_apc_profile_model_get_profile session dialog.name = true) ∧
    (ValidationError.unrecognizedKeys ∈
        (edit_profile_dialog_validate session dialog).2 ↔
      check_unrecognized_setting_keys dialog.settings = true) ∧
    (∀ e ∈ (edit_profile_dialog_validate session dialog).2,
      e = ValidationError.emptyProfileName ∨
      e = ValidationError.overwriteExisting dialog.name ∨
      e = ValidationError.renameOverwrites dialog.orig_name dialog.name ∨
      e = ValidationError.unrecognizedKeys) := by
  cases hnp : dialog.new_profile <;>
    by_cases hname : dialog.name = "" <;>
      by_cases horig : dialog.name = dialog.orig_name <;>
        cases hex : ctk_apc_profile_model_get_profile session dialog.name <;>
          cases hsrc : check_valid_source_file session dialog.source_file <;>
            cases hkeys : check_unrecognized_setting_keys dialog.settings <;>
              simp_all [edit_profile_dialog_validate, bne_iff_ne]

/-- C5 witness: a new profile with an empty name, a bad source file, an
unknown setting key, and a name collision (empty-named profile existing)
collects the fatal error and all three nonfatal errors. -/
theorem C5_edit_profile_dialog_validate_witness :
    ((edit_profile_dialog_validate ⟨["/ok"], [""]⟩
        ⟨"", "x", true, "/bad", [⟨"NotAKey", Json.jsonTrue⟩]⟩).1 ≠ []) ∧
    (ValidationError.emptyProfileName ∈
      (edit_profile_dialog_validate ⟨["/ok"], [""]⟩
        ⟨"", "x", true, "/bad", [⟨"NotAKey", Json.jsonTrue⟩]⟩).2) ∧
    (ValidationError.overwriteExisting "" ∈
      (edit_profile_dialog_validate ⟨["/ok"], [""]⟩
        ⟨"", "x", true, "/bad", [⟨"NotAKey", Json.jsonTrue⟩]⟩).2) ∧
    (ValidationError.unrecognizedKeys ∈
      (edit_profile_dialog_validate ⟨["/ok"], [""]⟩
        ⟨"", "x", true, "/bad", [⟨"NotAKey", Json.jsonTrue⟩]⟩).2) := by
  have h := C5_edit_profile_dialog_validate ⟨["/ok"], [""]⟩
      ⟨"", "x", true, "/bad", [⟨"NotAKey", Json.jsonTrue⟩]⟩
  exact ⟨h.1.mpr (by decide), h.2.2.1.mpr rfl,
    h.2.2.2.1.mpr ⟨rfl, by decide⟩, h.2.2.2.2.2.1.mpr (by decide)⟩

/-- Modelled from the spec: the external library's
`json_dumps(value, JSON_ENCODE_ANY)` — the "canonical textual (JSON) form" of
a value (spec 4.1).  The engine only applies it to string, boolean and real
values (a real is carried as its canonical text); the composite forms are
never requested by the code under verification and are left blank. -/
def json_dumps : Json → String
  | .str s => "\"" ++ s ++ "\""
  | .jsonTrue => "true"
  | .jsonFalse => "false"
  | .real r => r
  | .integer n => toString n
  | .null => "null"
  | .object _ => ""
  | .array _ => ""

/-- Lowercase hexadecimal digits of a natural number, as printed by
`printf "%llx"`. -/
def nat_to_hex (n : Nat) : String :=
  (Nat.toDigits 16 n).asString

/-- Embedding of the value branch of `setting_get_key_value`
(ctkappprofile.c:781-815): string/true/false/real values are dumped through
`json_dumps`; an integer is printed with `nvasprintf("0x%llx", ...)`, i.e.
"0x" followed by the lowercase hex digits of its 64-bit two's-complement
representation; the remaining types are unreachable for setting values
(`assert(0)`) and yield "?". -/
def setting_get_key_value (value : Json) : String :=
  match value with
  | .str _ => json_dumps value
  | .jsonTrue => json_dumps value
  | .jsonFalse => json_dumps value
  | .real _ => json_dumps value
  | .integer n => "0x" ++ nat_to_hex ((n % (2 ^ 64 : Int)).toNat)
  | _ => "?"

/-- C6: an integer setting value renders as "0x" followed by its hexadecimal
representation (for any 64-bit integer, the hex of its two's-complement
image; in particular plain hex for in-range nonnegative integers), while
string, boolean and real values render through the canonical textual JSON
form. -/
theorem C6_setting_get_key_value (n : Int) (s r : String) :
    setting_get_key_value (Json.integer n) =
      "0x" ++ nat_to_hex ((n % (2 ^ 64 : Int)).toNat) ∧
    (0 ≤ n → n < 2 ^ 64 →
      setting_get_key_value (Json.integer n) = "0x" ++ nat_to_hex n.toNat) ∧
    setting_get_key_value (Json.str s) = json_dumps (Json.str s) ∧
    setting_get_key_value Json.jsonTrue = json_dumps Json.jsonTrue ∧
    setting_get_key_value Json.jsonFalse = json_dumps Json.jsonFalse ∧
    setting_get_key_value (Json.real r) = json_dumps (Json.real r) := by
  refine ⟨rfl, ?_, rfl, rfl, rfl, rfl⟩
  intro h0 hlt
  show "0x" ++ nat_to_hex ((n % (2 ^ 64 : Int)).toNat) = "0x" ++ nat_to_hex n.toNat
  rw [Int.emod_eq_of_lt h0 hlt]

/-- C6 witness: the integer 3054 renders as "0xbee", and the boolean true as
"true". -/
theorem C6_setting_get_key_value_witness :
    setting_get_key_value (Json.integer 3054) = "0xbee" ∧
    setting_get_key_value Json.jsonTrue = "true" := by
  have h := (C6_setting_get_key_value 3054 "" "").2.1 (by decide) (by decide)
  exact ⟨h.trans rfl, (C6_setting_get_key_value 3054 "" "").2.2.2.1.trans rfl⟩

/-- Embedding of `get_default_global_config_file` (ctkappprofile.c:3347-3358):
the per-user globals file under `$HOME`, or NULL (with a warning) when HOME
is unset. -/
def get_default_global_config_file (home : Option String) : Option String :=
  match home with
  | some h => some (h ++ "/.nv/nvidia-application-profile-globals-rc")
  | none => none

/-- Embedding of `get_default_search_path` (ctkappprofile.c:3362-3379): the
two user-level entries under `$HOME` (when set) followed by the two
system-level entries under /etc/nvidia. -/
def get_default_search_path (home : Option String) : List String :=
  match home with
  | some h =>
    [ h ++ "/.nv/nvidia-application-profiles-rc",
      h ++ "/.nv/nvidia-application-profiles-rc.d",
      "/etc/nvidia/nvidia-application-profiles-rc",
      "/etc/nvidia/nvidia-application-profiles-rc.d" ]
  | none =>
    [ "/etc/nvidia/nvidia-application-profiles-rc",
      "/etc/nvidia/nvidia-application-profiles-rc.d" ]

/-- C7: with a home directory the default search path is the two user-level
entries (under the home directory) strictly before the two system-level
entries; without one it is exactly the system-level entries. -/
theorem C7_get_default_search_path (h : String) :
    get_default_search_path (some h) =
      [ h ++ "/.nv/nvidia-application-profiles-rc",
        h ++ "/.nv/nvidia-application-profiles-rc.d" ] ++
      get_default_search_path none ∧
    get_default_search_path none =
      [ "/etc/nvidia/nvidia-application-profiles-rc",
        "/etc/nvidia/nvidia-application-profiles-rc.d" ] :=
  ⟨rfl, rfl⟩

/-- Embedding of a rule as the engine stores it (pattern plus target profile
name).  The pattern's `matches` string is called `matches_string` here
because `matches` is a reserved word in Lean. -/
structure RuleEntry where
  feature : String
  matches_string : String
  profile : String

/-- Embedding of an application-profile configuration: the enabled flag, the
rule list and the profile table. -/
structure AppProfileConfig where
  enabled : Bool
  rules : List RuleEntry
  profiles : List (String × List Setting)

/-- Modelled from the spec: `nv_app_profile_config_load` (external
app-profiles library, not under src/) parses the configuration files found on
the search path; the parsed content of the disk is modelled directly as the
configuration it yields. -/
def nv_app_profile_config_load (disk : AppProfileConfig) : AppProfileConfig :=
  disk

/-- Modelled from the spec: `nv_app_profile_config_dup` (external
app-profiles library) — a deep copy, structurally the identity. -/
def nv_app_profile_config_dup (config : AppProfileConfig) : AppProfileConfig :=
  config

/-- The two configurations owned by the CtkAppProfile session. -/
structure CtkAppProfileState where
  cur_config : AppProfileConfig
  gold_config : AppProfileConfig

/-- Embedding of `app_profile_reload` (ctkappprofile.c:3402-3423): frees BOTH
`cur_config` and `gold_config`, reloads `gold_config` from disk with
`nv_app_profile_config_load` over the default search path, and sets
`cur_config` to a duplicate of the new gold.  `disk` is the parsed on-disk
configuration at the moment of the call. -/
def app_profile_reload (_state : CtkAppProfileState)
    (disk : AppProfileConfig) : CtkAppProfileState :=
  let gold := nv_app_profile_config_load disk
  { gold_config := gold, cur_config := nv_app_profile_config_dup gold }

/-- C8 counterexample: reload does NOT keep the old gold configuration.
With a disabled gold snapshot and an on-disk configuration whose enabled flag
is set, reloading replaces gold by the fresh reparse (its enabled flag
changes), and the new current is not a duplicate of the old gold. -/
theorem C8_counterexample :
    (app_profile_reload
        ⟨⟨false, [], []⟩, ⟨false, [], []⟩⟩ ⟨true, [], []⟩).gold_config.enabled ≠
      (⟨⟨false, [], []⟩, ⟨false, [], []⟩⟩ :
        CtkAppProfileState).gold_config.enabled ∧
    (app_profile_reload
        ⟨⟨false, [], []⟩, ⟨false, [], []⟩⟩ ⟨true, [], []⟩).cur_config.enabled ≠
      (nv_app_profile_config_dup
        (⟨⟨false, [], []⟩, ⟨false, [], []⟩⟩ :
          CtkAppProfileState).gold_config).enabled := by
  exact ⟨by decide, by decide⟩

/-- C8 amended: on reload both configurations are discarded; gold is replaced
by a fresh reparse of the on-disk configuration, current becomes a duplicate
of that new gold, and the session ends Clean (current structurally equal to
gold). -/
theorem C8_app_profile_reload_amended (s : CtkAppProfileState)
    (disk : AppProfileConfig) :
    (app_profile_reload s disk).gold_config = nv_app_profile_config_load disk ∧
    (app_profile_reload s disk).cur_config =
      nv_app_profile_config_dup (app_profile_reload s disk).gold_config ∧
    (app_profile_reload s disk).cur_config =
      (app_profile_reload s disk).gold_config :=
  ⟨rfl, rfl, rfl⟩

end CtkAppProfile
